import Mathlib

/-!
Verification of the Monday.com API client (`src/utils/monday_api.py`).

The file shallowly embeds the two functions of the module:
`get_monday_data` (QueryExecutor) and `update_monday_item` (ColumnUpdater).
Python/JSON values are modelled by the inductive `Json`; Python dicts by
association lists with unique keys (`Dict`); the HTTP transport and the
behaviour of `json.loads` on the one string the code decodes are passed as
explicit parameters, so "transport raised" / "decode failed" become `Except`
error values.  Exceptions are modelled with `Except Unit`; the outer
`except Exception` of `update_monday_item` becomes total `Bool`-returning
code.
-/

namespace MondayApi

/-- A JSON value as decoded by Python's `json` module.  Numbers are modelled
as integers (the program never manipulates fractional numbers). -/
inductive Json where
  | null
  | bool (b : Bool)
  | int (n : Int)
  | str (s : String)
  | arr (elems : List Json)
  | obj (members : List (String × Json))

/-- A Python dict with string keys, as produced by decoding a JSON object:
an ordered association list (Python dicts preserve insertion order and have
unique keys). -/
abbrev Dict := List (String × Json)

/-- Python dict lookup (`d[k]` / `k in d`): the value at the first (and in a
real dict, only) occurrence of the key. -/
def lookupField : Dict → String → Option Json
  | [], _ => none
  | (k, v) :: rest, key => if k = key then some v else lookupField rest key

/-- Python truthiness of a decoded JSON value (`if x:`): `None`, `False`,
`0`, `""` and empty containers are falsy, everything else truthy. -/
def truthy : Json → Bool
  | .null => false
  | .bool b => b
  | .int n => n != 0
  | .str s => s != ""
  | .arr elems => !elems.isEmpty
  | .obj members => !members.isEmpty

/-- `isinstance(value, dict) and 'text' in value`: the guard of the
normalization loop in `update_monday_item`. -/
def isTextDict : Json → Bool
  | .obj fs => (lookupField fs "text").isSome
  | _ => false

/-- Python `x == ""`: true exactly when `x` is the empty string (for any
other type the comparison is `False`, never an error). -/
def pyEqEmptyStr : Json → Bool
  | .str s => s == ""
  | _ => false

/-- The body of the normalization loop of `update_monday_item` for one entry
(`monday_api.py` lines 84-89): if the value is a dict containing `"text"`,
replace it by `""` when `value['text'] == ""` and by the raw text value
otherwise; leave every other value unchanged. -/
def normalizeValue (v : Json) : Json :=
  match v with
  | .obj fs =>
    match lookupField fs "text" with
    | some t => if pyEqEmptyStr t then Json.str "" else t
    | none => v
  | _ => v

/-- The whole normalization pass over the decoded `column_values` mapping:
the loop `for key, value in column_values.items(): ...` visits each key once
and rewrites only the value at that key, so it is the entry-wise map of
`normalizeValue` over the values. -/
def normalizeColumnValues (cvs : Dict) : Dict :=
  cvs.map (fun p => (p.1, normalizeValue p.2))

/-- Four-digit lowercase hexadecimal, as in Python's `\uXXXX` escapes. -/
def hex4 (n : Nat) : String :=
  let ds := Nat.toDigits 16 n
  let pad := List.replicate (4 - ds.length) '0'
  String.mk (pad ++ ds)

/-- The escape `json.dumps` (default `ensure_ascii=True`) applies to one
character of a string. -/
def escapeChar (c : Char) : String :=
  if c = '"' then "\\\""
  else if c = '\\' then "\\\\"
  else if c = '\n' then "\\n"
  else if c = '\t' then "\\t"
  else if c = '\r' then "\\r"
  else if c = '\x08' then "\\b"
  else if c = '\x0c' then "\\f"
  else if c.toNat < 0x20 then "\\u" ++ hex4 c.toNat
  else if c.toNat < 0x7f then String.singleton c
  else if c.toNat < 0x10000 then "\\u" ++ hex4 c.toNat
  else
    let v := c.toNat - 0x10000
    "\\u" ++ hex4 (0xd800 + v / 0x400) ++ "\\u" ++ hex4 (0xdc00 + v % 0x400)

/-- A JSON string literal as `json.dumps` prints it. -/
def dumpsString (s : String) : String :=
  "\"" ++ String.join (s.data.map escapeChar) ++ "\""

mutual
/-- `json.dumps` with its default separators `", "` and `": "`. -/
def dumpsJson : Json → String
  | .null => "null"
  | .bool true => "true"
  | .bool false => "false"
  | .int n => toString n
  | .str s => dumpsString s
  | .arr elems => "[" ++ dumpsArr elems ++ "]"
  | .obj members => "\x7b" ++ dumpsObj members ++ "\x7d"

/-- The comma-joined elements of an array. -/
def dumpsArr : List Json → String
  | [] => ""
  | [v] => dumpsJson v
  | v :: rest => dumpsJson v ++ ", " ++ dumpsArr rest

/-- The comma-joined `"key": value` members of an object. -/
def dumpsObj : List (String × Json) → String
  | [] => ""
  | [(k, v)] => dumpsString k ++ ": " ++ dumpsJson v
  | (k, v) :: rest => dumpsString k ++ ": " ++ dumpsJson v ++ ", " ++ dumpsObj rest
end

/-- A Python scalar as accepted for `item_id` (the docstring says `str`,
and the code applies `str(...)` to it, so integers work too). -/
inductive PyScalar where
  | s (v : String)
  | i (v : Int)

/-- Python `str(...)` on an `item_id` scalar. -/
def pyStr : PyScalar → String
  | .s v => v
  | .i v => toString v

/-- The GraphQL mutation literal of `update_monday_item`, exactly as the
Python triple-quoted string (leading newline and indentation included). -/
def mutationText : String :=
  "\n        mutation ($item_id: ID!, $board_id: ID!, $column_values: JSON!) \x7b\n          change_multiple_column_values (\n            item_id: $item_id,\n            board_id: $board_id,\n            column_values: $column_values\n          ) \x7b\n            id\n          \x7d\n        \x7d\n        "

/-- `v.get(k, default)` on a decoded JSON value: returns the stored value
(even when it is `null`) or the default when the key is absent; raises
`AttributeError` (modelled as `.error ()`) when `v` is not a dict. -/
def dictGet (v : Json) (k : String) (default : Json) : Except Unit Json :=
  match v with
  | .obj fs => .ok ((lookupField fs k).getD default)
  | _ => .error ()

/-- `v.get(k)` (default `None`, modelled as `Json.null`). -/
def dictGetOrNull (v : Json) (k : String) : Except Unit Json :=
  match v with
  | .obj fs => .ok ((lookupField fs k).getD Json.null)
  | _ => .error ()

/-- The success check of `update_monday_item` (line 106):
`result.get('data', {}).get('change_multiple_column_values', {}).get('id')`
followed by Python truthiness; an intermediate non-dict raises
`AttributeError`, modelled as `.error ()`. -/
def checkSuccess (result : Json) : Except Unit Bool :=
  match dictGet result "data" (Json.obj []) with
  | .error e => .error e
  | .ok d =>
    match dictGet d "change_multiple_column_values" (Json.obj []) with
    | .error e => .error e
    | .ok c =>
      match dictGetOrNull c "id" with
      | .error e => .error e
      | .ok i => .ok (truthy i)

/-- The success check combined with the enclosing `except Exception` of
`update_monday_item`: an `AttributeError` raised by the `.get` chain is
caught and turned into the `False` return. -/
def interpretResponse (result : Json) : Bool :=
  match checkSuccess result with
  | .ok b => b
  | .error _ => false

/-- The variables dict `update_monday_item` sends: `item_id` is
`str(item_id)`, `board_id` is passed through unchanged, `column_values` is
a JSON-serialized string. -/
structure UpdateVariables where
  item_id : String
  board_id : Json
  column_values : String

/-- The POST body of `update_monday_item`: `{'query': mutation,
'variables': variables}`. -/
structure UpdatePayload where
  query : String
  vars : UpdateVariables

/-- What `update_monday_item` did: its boolean return value, and the POST
body it sent (`none` when no network call was issued). -/
structure UpdateOutcome where
  result : Bool
  sent : Option UpdatePayload

/-- `update_monday_item(item_id, board_id, column_values, api_key, api_url)`.

The two effects are parameters: `loads` is the behaviour of `json.loads`
on the string it is given (`.error ()` models `json.JSONDecodeError`), and
`transport` is the combined outcome of `requests.post` +
`raise_for_status()` + `response.json()` for a given POST body (`.error ()`
models any exception on that path: connection failure, 4xx/5xx status,
malformed JSON body).  The `api_key`/`api_url` arguments only feed the
transport and are absorbed into `transport` itself.

Control flow mirrors the source: build `variables` with the dumped
`column_values`; re-decode that string (on `JSONDecodeError`: log and
`return False` before any network call); normalize the decoded mapping and
re-dump it; POST; interpret the response.  A decode result that is not a
dict makes the `.items()` loop raise `AttributeError`, which the outer
`except Exception` turns into `False` (also before any network call). -/
def update_monday_item (item_id : PyScalar) (board_id : Json)
    (column_values : Dict) (loads : String → Except Unit Json)
    (transport : UpdatePayload → Except Unit Json) : UpdateOutcome :=
  let serialized := dumpsJson (Json.obj column_values)
  match loads serialized with
  | .error _ => { result := false, sent := none }
  | .ok (Json.obj decoded) =>
    let normalized := normalizeColumnValues decoded
    let vars : UpdateVariables :=
      { item_id := pyStr item_id
        board_id := board_id
        column_values := dumpsJson (Json.obj normalized) }
    let payload : UpdatePayload := { query := mutationText, vars := vars }
    match transport payload with
    | .error _ => { result := false, sent := some payload }
    | .ok result => { result := interpretResponse result, sent := some payload }
  | .ok _ => { result := false, sent := none }

/-- The errors `get_monday_data` lets escape: `requests.exceptions.
RequestException` (connection failure or the `HTTPError` from
`raise_for_status()`) and `json.JSONDecodeError`. -/
inductive MondayError where
  | transport
  | decode

/-- An HTTP response as `get_monday_data` consumes it: the final status
code and the outcome of `response.json()` on the body (`.error ()` models
a body that is not valid JSON). -/
structure HttpResponse where
  status : Nat
  jsonBody : Except Unit Json

/-- The request body `get_monday_data` builds (lines 20-24):
`payload = {'query': query}`, then `payload['variables'] = variables` only
when `if variables:` is truthy — i.e. the optional dict is present and
non-empty. -/
def buildPayload (query : String) (vars : Option Dict) : Dict :=
  let payload : Dict := [("query", Json.str query)]
  match vars with
  | some vs => if vs.isEmpty then payload else payload ++ [("variables", Json.obj vs)]
  | none => payload

/-- `response.raise_for_status()` raises `HTTPError` exactly for 4xx and
5xx status codes. -/
def raisesForStatus (status : Nat) : Bool :=
  (400 ≤ status && status < 500) || (500 ≤ status && status < 600)

/-- `get_monday_data(query, api_key, api_url, variables)`.

`transport` is the behaviour of `requests.post` on the built body
(`.error ()` models a `RequestException` while sending).  Both `except`
clauses of the source log and re-`raise`, so every failure escapes:
a send failure or a 4xx/5xx status as `MondayError.transport`, an invalid
JSON body as `MondayError.decode`; otherwise the parsed JSON is returned
as-is. -/
def get_monday_data (query : String)
    (vars : Option Dict)
    (transport : Dict → Except Unit HttpResponse) : Except MondayError Json :=
  let payload := buildPayload query vars
  match transport payload with
  | .error _ => .error MondayError.transport
  | .ok response =>
    if raisesForStatus response.status then .error MondayError.transport
    else
      match response.jsonBody with
      | .ok parsed => .ok parsed
      | .error _ => .error MondayError.decode

/-- Spec-side reading of the success condition, written from the spec's
words: "the response contains a non-empty identifier at path
`data.change_multiple_column_values.id`" — each step of the path is a key
present in a JSON object, and the identifier found at the end is non-empty
(formalised as Python-truthy: not `null`, not `""`, not `0`/`false`/an
empty container). -/
def respHasNonEmptyId (r : Json) : Bool :=
  match r with
  | .obj fs =>
    match lookupField fs "data" with
    | some (.obj gs) =>
      match lookupField gs "change_multiple_column_values" with
      | some (.obj hs) =>
        match lookupField hs "id" with
        | some v => truthy v
        | none => false
      | _ => false
    | _ => false
  | _ => false

/-! ## Store-level model of the normalization loop

`update_monday_item` rebinds the local name `column_values` to the fresh
dict object returned by `json.loads` and then performs its in-place writes
`column_values[key] = ...` on that object, so the dict the caller passed is
never written to.  To state this frame property, dict objects live in an
explicit heap (a list of dicts addressed by position); `json.loads`
allocates at the end of the heap, and the loop writes through the fresh
address only. -/

/-- The heap of Python dict objects, addressed by position. -/
abbrev Heap := List Dict

/-- Python dict assignment `d[k] = v`: overwrite the value at the existing
key in place (keeping its position), or append a new entry. -/
def setKey : Dict → String → Json → Dict
  | [], key, v => [(key, v)]
  | (k, w) :: rest, key, v =>
    if k = key then (key, v) :: rest else (k, w) :: setKey rest key v

/-- Write `k ↦ v` into the dict object at `addr`. -/
def heapWrite (h : Heap) (addr : Nat) (k : String) (v : Json) : Heap :=
  h.set addr (setKey (h.getD addr []) k v)

/-- The normalization loop `for key, value in column_values.items(): ...`
performed through the heap: `items` is the sequence of key/value pairs the
iteration yields (each key of the dict once, with the value read before the
only write to that key), and every write targets the dict at `addr`. -/
def normalizeLoopHeap (h : Heap) (addr : Nat) : List (String × Json) → Heap
  | [] => h
  | (k, v) :: rest =>
    let h1 := if isTextDict v then heapWrite h addr k (normalizeValue v) else h
    normalizeLoopHeap h1 addr rest

/-- `update_monday_item` at the store level: the caller's `column_values`
dict lives at `callerAddr` in the heap; `json.loads` allocates the decoded
mapping as a fresh object, the loop mutates only that fresh object, and the
final heap is returned next to the observable outcome. -/
def update_monday_item_heap (item_id : PyScalar) (board_id : Json)
    (callerAddr : Nat) (h : Heap) (loads : String → Except Unit Json)
    (transport : UpdatePayload → Except Unit Json) : Heap × UpdateOutcome :=
  let callerDict := h.getD callerAddr []
  let serialized := dumpsJson (Json.obj callerDict)
  match loads serialized with
  | .error _ => (h, { result := false, sent := none })
  | .ok (Json.obj decoded) =>
    let freshAddr := h.length
    let h1 := h ++ [decoded]
    let h2 := normalizeLoopHeap h1 freshAddr decoded
    let normalized := h2.getD freshAddr []
    let vars : UpdateVariables :=
      { item_id := pyStr item_id
        board_id := board_id
        column_values := dumpsJson (Json.obj normalized) }
    let payload : UpdatePayload := { query := mutationText, vars := vars }
    match transport payload with
    | .error _ => (h2, { result := false, sent := some payload })
    | .ok result => (h2, { result := interpretResponse result, sent := some payload })
  | .ok _ => (h, { result := false, sent := none })

/-- The side condition under which the normalization pass cannot unwrap
twice: no entry's `"text"` payload is itself a `"text"`-bearing mapping. -/
def noNestedTextEnvelope (v : Json) : Bool :=
  match v with
  | .obj fs =>
    match lookupField fs "text" with
    | some t => !(isTextDict t)
    | none => true
  | _ => true

/-! ## Helper lemmas -/

theorem pyEqEmptyStr_eq_true_iff (t : Json) :
    pyEqEmptyStr t = true ↔ t = Json.str "" := by
  cases t <;> simp [pyEqEmptyStr]

theorem normalizeValue_of_isTextDict_false (v : Json)
    (h : isTextDict v = false) : normalizeValue v = v := by
  cases v <;> try rfl
  case obj fs =>
    cases hl : lookupField fs "text" with
    | none => simp [normalizeValue, hl]
    | some t => simp [isTextDict, hl] at h

theorem normalizeValue_idem (v : Json)
    (h : noNestedTextEnvelope v = true) :
    normalizeValue (normalizeValue v) = normalizeValue v := by
  cases v <;> try rfl
  case obj fs =>
    cases hl : lookupField fs "text" with
    | none => simp [normalizeValue, hl]
    | some t =>
      have ht : isTextDict t = false := by
        simpa [noNestedTextEnvelope, hl] using h
      by_cases he : pyEqEmptyStr t = true
      · have he' : t = Json.str "" := (pyEqEmptyStr_eq_true_iff t).mp he
        subst he'
        simp [normalizeValue, hl, pyEqEmptyStr]
      · simp only [Bool.not_eq_true] at he
        simp only [normalizeValue, hl, he, Bool.false_eq_true, if_false]
        exact normalizeValue_of_isTextDict_false t ht

theorem interpretResponse_eq_respHasNonEmptyId (r : Json) :
    interpretResponse r = respHasNonEmptyId r := by
  cases r <;> try rfl
  case obj fs =>
    simp only [interpretResponse, checkSuccess, dictGet, dictGetOrNull, respHasNonEmptyId]
    cases hd : lookupField fs "data" with
    | none => simp [lookupField, truthy]
    | some d =>
      cases d <;> simp only [Option.getD_some]
      case obj gs =>
        cases hc : lookupField gs "change_multiple_column_values" with
        | none => simp [lookupField, truthy]
        | some c =>
          cases c <;> simp only [Option.getD_some]
          case obj hs =>
            cases hi : lookupField hs "id" with
            | none => simp [truthy]
            | some i => simp

/-! ## Claim theorems -/

/-- C1: In `update_monday_item`'s normalization pass over the decoded
`column_values` mapping, every entry is rewritten independently
(the pass is the entry-wise map of `normalizeValue`); for an entry whose
value is a mapping containing the key `"text"`: if the text equals the
empty string the value is replaced by the empty string, otherwise by the
raw text value with the envelope removed; every entry whose value is not
such a mapping is left unchanged. -/
theorem normalization_unwraps_text_envelope :
    (∀ cvs : Dict, normalizeColumnValues cvs =
      cvs.map (fun p => (p.1, normalizeValue p.2))) ∧
    (∀ fs : List (String × Json), lookupField fs "text" = some (Json.str "") →
      normalizeValue (Json.obj fs) = Json.str "") ∧
    (∀ (fs : List (String × Json)) (t : Json), lookupField fs "text" = some t →
      t ≠ Json.str "" → normalizeValue (Json.obj fs) = t) ∧
    (∀ v : Json, isTextDict v = false → normalizeValue v = v) := by
  refine ⟨fun _ => rfl, ?_, ?_, normalizeValue_of_isTextDict_false⟩
  · intro fs hl
    simp [normalizeValue, hl, pyEqEmptyStr]
  · intro fs t hl hne
    have he : pyEqEmptyStr t = false := by
      cases hp : pyEqEmptyStr t
      · rfl
      · exact absurd ((pyEqEmptyStr_eq_true_iff t).mp hp) hne
    simp [normalizeValue, hl, he]

/-- Witness for C1: the three behaviours at concrete entries — an empty
text is cleared, a non-empty text is unwrapped to a bare string, a
non-envelope value passes through. -/
theorem normalization_unwraps_text_envelope_witness :
    normalizeValue (Json.obj [("text", Json.str "")]) = Json.str "" ∧
    normalizeValue (Json.obj [("text", Json.str "Done")]) = Json.str "Done" ∧
    normalizeValue (Json.int 7) = Json.int 7 :=
  ⟨normalization_unwraps_text_envelope.2.1 [("text", Json.str "")] (by simp [lookupField]),
   normalization_unwraps_text_envelope.2.2.1 [("text", Json.str "Done")] (Json.str "Done")
     (by simp [lookupField]) (by simp),
   normalization_unwraps_text_envelope.2.2.2 (Json.int 7) rfl⟩

/-- C6: on a column value mapping none of whose entries carries a
`"text"`-bearing mapping value, the normalization pass is the identity. -/
theorem normalization_identity_without_text (cvs : Dict)
    (h : ∀ p ∈ cvs, isTextDict p.2 = false) :
    normalizeColumnValues cvs = cvs := by
  induction cvs with
  | nil => rfl
  | cons p rest ih =>
    have h1 : normalizeValue p.2 = p.2 :=
      normalizeValue_of_isTextDict_false p.2 (h p (List.mem_cons_self p rest))
    have h2 : normalizeColumnValues rest = rest :=
      ih (fun q hq => h q (List.mem_cons_of_mem p hq))
    simp only [normalizeColumnValues, List.map_cons] at h2 ⊢
    rw [h1, h2]

/-- Witness for C6: a mapping of plain scalars and a non-`"text"` object
passes through the normalization unchanged. -/
theorem normalization_identity_without_text_witness :
    normalizeColumnValues
        [("a", Json.str "x"), ("b", Json.int 3),
         ("c", Json.obj [("label", Json.str "y")])] =
      [("a", Json.str "x"), ("b", Json.int 3),
       ("c", Json.obj [("label", Json.str "y")])] :=
  normalization_identity_without_text _ (by decide)

/-- C9 counterexample: the normalization pass is not idempotent — when a
`"text"` payload is itself a `"text"`-bearing mapping, the second
application unwraps again. -/
theorem normalization_not_idempotent :
    normalizeColumnValues (normalizeColumnValues
        [("k", Json.obj [("text", Json.obj [("text", Json.str "x")])])]) ≠
      normalizeColumnValues
        [("k", Json.obj [("text", Json.obj [("text", Json.str "x")])])] := by
  intro h
  have h' : ([("k", Json.str "x")] : Dict) =
      [("k", Json.obj [("text", Json.str "x")])] := h
  simp at h'

/-- C9 (amended): the normalization pass is idempotent on every mapping in
which no entry's `"text"` payload is itself a `"text"`-bearing mapping (in
particular whenever all text payloads are bare strings, the case the claim
reasons about); the counterexample above forces this restriction. -/
theorem normalization_idempotent_amended (cvs : Dict)
    (h : ∀ p ∈ cvs, noNestedTextEnvelope p.2 = true) :
    normalizeColumnValues (normalizeColumnValues cvs) =
      normalizeColumnValues cvs := by
  induction cvs with
  | nil => rfl
  | cons p rest ih =>
    have h1 : normalizeValue (normalizeValue p.2) = normalizeValue p.2 :=
      normalizeValue_idem p.2 (h p (List.mem_cons_self p rest))
    have h2 : normalizeColumnValues (normalizeColumnValues rest) =
        normalizeColumnValues rest :=
      ih (fun q hq => h q (List.mem_cons_of_mem p hq))
    simp only [normalizeColumnValues, List.map_cons] at h2 ⊢
    rw [h1]
    exact congrArg _ h2

/-- Witness for C9's amended statement: applying the pass twice to the
spec's own example mapping equals applying it once. -/
theorem normalization_idempotent_amended_witness :
    normalizeColumnValues (normalizeColumnValues
        [("status", Json.obj [("text", Json.str "Done")]),
         ("notes", Json.obj [("text", Json.str "")])]) =
      normalizeColumnValues
        [("status", Json.obj [("text", Json.str "Done")]),
         ("notes", Json.obj [("text", Json.str "")])] :=
  normalization_idempotent_amended _ (by decide)

/-- C2: when the transport yields a parsed JSON response `r` (the re-decode
of the serialized column values having produced a mapping, so the call
reaches the network), `update_monday_item` returns `true` iff `r` contains
a non-empty identifier at path `data.change_multiple_column_values.id`; any
other shape yields `false` (the `.get` chain's possible `AttributeError` is
caught, not escalated). -/
theorem update_success_iff_nonempty_id (item : PyScalar) (board : Json)
    (cvs : Dict) (loads : String → Except Unit Json) (r : Json) (d : Dict)
    (h : loads (dumpsJson (Json.obj cvs)) = Except.ok (Json.obj d)) :
    (update_monday_item item board cvs loads (fun _ => Except.ok r)).result = true ↔
      respHasNonEmptyId r = true := by
  simp only [update_monday_item, h, interpretResponse_eq_respHasNonEmptyId]

/-- Witness for C2, in both directions: a response with an `id` gives
`true`, and an error payload without the path gives `false`. -/
theorem update_success_iff_nonempty_id_witness :
    (update_monday_item (PyScalar.s "123") (Json.int 456) []
        (fun _ => Except.ok (Json.obj []))
        (fun _ => Except.ok (Json.obj [("data", Json.obj
          [("change_multiple_column_values", Json.obj
            [("id", Json.str "987")])])]))).result = true ∧
    ¬ (update_monday_item (PyScalar.s "123") (Json.int 456) []
        (fun _ => Except.ok (Json.obj []))
        (fun _ => Except.ok (Json.obj [("errors", Json.arr
          [Json.str "boom"])]))).result = true :=
  ⟨(update_success_iff_nonempty_id _ _ _ _ _ [] rfl).mpr (by decide),
   fun hc => by
    have := (update_success_iff_nonempty_id (PyScalar.s "123") (Json.int 456) []
      (fun _ => Except.ok (Json.obj []))
      (Json.obj [("errors", Json.arr [Json.str "boom"])]) [] rfl).mp hc
    exact absurd this (by decide)⟩

/-- C3: the `except Exception` wrapper of `update_monday_item` converts
every failure into a `false` return — a transport that raises (HTTP error,
connection failure, malformed JSON body) yields `false`, and so does a
response of unexpected structure whose `.get` chain raises. The embedding
returns an `UpdateOutcome` for every behaviour of its effect parameters,
so no exception escapes. -/
theorem update_converts_exceptions_to_false (item : PyScalar) (board : Json)
    (cvs : Dict) (loads : String → Except Unit Json) (r : Json) :
    ((update_monday_item item board cvs loads
        (fun _ => Except.error ())).result = false) ∧
    (checkSuccess r = Except.error () →
      (update_monday_item item board cvs loads
        (fun _ => Except.ok r)).result = false) := by
  constructor
  · cases hl : loads (dumpsJson (Json.obj cvs)) with
    | error e => simp [update_monday_item, hl]
    | ok j => cases j <;> simp [update_monday_item, hl]
  · intro hc
    cases hl : loads (dumpsJson (Json.obj cvs)) with
    | error e => simp [update_monday_item, hl]
    | ok j => cases j <;> simp [update_monday_item, hl, interpretResponse, hc]

/-- Witness for C3: a raising transport gives `false`, and a response that
is a bare string (whose `.get` raises `AttributeError`) gives `false`. -/
theorem update_converts_exceptions_to_false_witness :
    ((update_monday_item (PyScalar.s "123") (Json.int 456) []
        (fun _ => Except.ok (Json.obj []))
        (fun _ => Except.error ())).result = false) ∧
    ((update_monday_item (PyScalar.s "123") (Json.int 456) []
        (fun _ => Except.ok (Json.obj []))
        (fun _ => Except.ok (Json.str "oops"))).result = false) :=
  ⟨(update_converts_exceptions_to_false (PyScalar.s "123") (Json.int 456) []
      (fun _ => Except.ok (Json.obj [])) Json.null).1,
   (update_converts_exceptions_to_false (PyScalar.s "123") (Json.int 456) []
      (fun _ => Except.ok (Json.obj [])) (Json.str "oops")).2 rfl⟩

/-- C4: `update_monday_item` sends variables with `item_id = str(item_id)`,
`board_id` passed through unchanged, and `column_values` the
serialized-to-string JSON encoding of the normalized mapping; on the spec's
end-to-end example the normalized mapping (the decoded form of the
transmitted string) is `{"status": "Done", "notes": ""}`. -/
theorem update_builds_variables (item : PyScalar) (board : Json) (cvs : Dict)
    (loads : String → Except Unit Json)
    (transport : UpdatePayload → Except Unit Json)
    (h : loads (dumpsJson (Json.obj cvs)) = Except.ok (Json.obj cvs)) :
    (update_monday_item item board cvs loads transport).sent =
      some { query := mutationText
             vars := { item_id := pyStr item
                       board_id := board
                       column_values :=
                         dumpsJson (Json.obj (normalizeColumnValues cvs)) } } ∧
    normalizeColumnValues
        [("status", Json.obj [("text", Json.str "Done")]),
         ("notes", Json.obj [("text", Json.str "")])] =
      [("status", Json.str "Done"), ("notes", Json.str "")] := by
  refine ⟨?_, rfl⟩
  simp only [update_monday_item, h]
  cases transport
      { query := mutationText
        vars := { item_id := pyStr item
                  board_id := board
                  column_values :=
                    dumpsJson (Json.obj (normalizeColumnValues cvs)) } } <;> rfl

/-- Witness for C4: the spec's end-to-end call
`updateItem(itemId="123", boardId=456, columnValues={"status": {"text":
"Done"}, "notes": {"text": ""}})` sends exactly the decoded-and-normalized
serialization. -/
theorem update_builds_variables_witness :
    (update_monday_item (PyScalar.s "123") (Json.int 456)
        [("status", Json.obj [("text", Json.str "Done")]),
         ("notes", Json.obj [("text", Json.str "")])]
        (fun _ => Except.ok (Json.obj
          [("status", Json.obj [("text", Json.str "Done")]),
           ("notes", Json.obj [("text", Json.str "")])]))
        (fun _ => Except.ok Json.null)).sent =
      some { query := mutationText
             vars := { item_id := "123"
                       board_id := Json.int 456
                       column_values := dumpsJson (Json.obj
                        [("status", Json.str "Done"),
                         ("notes", Json.str "")]) } } :=
  (update_builds_variables (PyScalar.s "123") (Json.int 456)
    [("status", Json.obj [("text", Json.str "Done")]),
     ("notes", Json.obj [("text", Json.str "")])] _ _ rfl).1

/-- C7: when the defensive re-decode of the just-serialized
`column_values` string fails, `update_monday_item` returns `false` and no
POST is issued. -/
theorem decode_failure_no_network (item : PyScalar) (board : Json)
    (cvs : Dict) (loads : String → Except Unit Json)
    (transport : UpdatePayload → Except Unit Json)
    (h : loads (dumpsJson (Json.obj cvs)) = Except.error ()) :
    (update_monday_item item board cvs loads transport).result = false ∧
    (update_monday_item item board cvs loads transport).sent = none := by
  simp [update_monday_item, h]

/-- Witness for C7: with a decoder that fails, the call returns `false`
without sending anything. -/
theorem decode_failure_no_network_witness :
    (update_monday_item (PyScalar.s "123") (Json.int 456) []
        (fun _ => Except.error ()) (fun _ => Except.ok Json.null)).result = false ∧
    (update_monday_item (PyScalar.s "123") (Json.int 456) []
        (fun _ => Except.error ()) (fun _ => Except.ok Json.null)).sent = none :=
  decode_failure_no_network (PyScalar.s "123") (Json.int 456) []
    (fun _ => Except.error ()) (fun _ => Except.ok Json.null) rfl

/-- C5 counterexample: `raise_for_status()` only raises for 4xx/5xx, so a
non-2xx status outside that range is not a transport error — with a final
status of 300 and a valid JSON body, `get_monday_data` returns the parsed
body instead of failing, refuting "on any non-2xx HTTP status it fails
with a transport error". -/
theorem get_monday_data_non2xx_counterexample :
    (¬ (200 ≤ 300 ∧ 300 < 300)) ∧
    get_monday_data "q" none
        (fun _ => Except.ok ⟨300, Except.ok (Json.obj [])⟩) =
      Except.ok (Json.obj []) ∧
    get_monday_data "q" none
        (fun _ => Except.ok ⟨300, Except.ok (Json.obj [])⟩) ≠
      Except.error MondayError.transport :=
  ⟨by decide, rfl, fun h => Except.noConfusion h⟩

/-- C5 (amended): `get_monday_data` propagates failures to its caller — a
send failure, or any 4xx/5xx HTTP status (the statuses
`raise_for_status()` raises for; not every non-2xx status), fails with a
transport error, and a response body that is not valid JSON (when no such
status intervened) fails with a decode error; neither failure is
swallowed. -/
theorem get_monday_data_propagates_failures (q : String)
    (vars : Option Dict) (transport : Dict → Except Unit HttpResponse) :
    (transport (buildPayload q vars) = Except.error () →
      get_monday_data q vars transport = Except.error MondayError.transport) ∧
    (∀ (st : Nat) (body : Except Unit Json),
      transport (buildPayload q vars) = Except.ok ⟨st, body⟩ →
      400 ≤ st → st < 600 →
      get_monday_data q vars transport = Except.error MondayError.transport) ∧
    (∀ st : Nat,
      transport (buildPayload q vars) = Except.ok ⟨st, Except.error ()⟩ →
      ¬ (400 ≤ st ∧ st < 600) →
      get_monday_data q vars transport = Except.error MondayError.decode) := by
  refine ⟨fun h => by simp [get_monday_data, h], ?_, ?_⟩
  · intro st body h h4 h6
    have hr : raisesForStatus st = true := by
      simp only [raisesForStatus, Bool.or_eq_true, Bool.and_eq_true, decide_eq_true_eq]
      omega
    simp [get_monday_data, h, hr]
  · intro st h hn
    have hr : raisesForStatus st = false := by
      simp only [raisesForStatus, Bool.or_eq_false_iff, Bool.and_eq_false_iff,
        decide_eq_false_iff_not]
      omega
    simp [get_monday_data, h, hr]

/-- Witness for C5's amended statement: a connection failure, an HTTP 500,
and a 200 with a non-JSON body, each at a concrete call. -/
theorem get_monday_data_propagates_failures_witness :
    get_monday_data "q" none (fun _ => Except.error ()) =
      Except.error MondayError.transport ∧
    get_monday_data "q" none
        (fun _ => Except.ok ⟨500, Except.ok Json.null⟩) =
      Except.error MondayError.transport ∧
    get_monday_data "q" none
        (fun _ => Except.ok ⟨200, Except.error ()⟩) =
      Except.error MondayError.decode :=
  ⟨(get_monday_data_propagates_failures "q" none (fun _ => Except.error ())).1 rfl,
   (get_monday_data_propagates_failures "q" none
      (fun _ => Except.ok ⟨500, Except.ok Json.null⟩)).2.1 500
      (Except.ok Json.null) rfl (by decide) (by decide),
   (get_monday_data_propagates_failures "q" none
      (fun _ => Except.ok ⟨200, Except.error ()⟩)).2.2 200 rfl (by decide)⟩

/-- C8: the request body `get_monday_data` builds always contains the
query, and contains the variables mapping exactly when the `variables`
argument is present and non-empty. -/
theorem payload_query_and_variables (q : String) (vars : Option Dict) :
    lookupField (buildPayload q vars) "query" = some (Json.str q) ∧
    (∀ vs : Dict, vars = some vs → vs ≠ [] →
      lookupField (buildPayload q vars) "variables" = some (Json.obj vs)) ∧
    (vars = none ∨ vars = some [] →
      lookupField (buildPayload q vars) "variables" = none) := by
  refine ⟨?_, ?_, ?_⟩
  · cases vars with
    | none => simp [buildPayload, lookupField]
    | some vs =>
      cases vs with
      | nil => simp [buildPayload, lookupField]
      | cons p rest => simp [buildPayload, lookupField]
  · intro vs hv hne
    subst hv
    cases vs with
    | nil => exact absurd rfl hne
    | cons p rest => simp [buildPayload, lookupField]
  · intro hv
    rcases hv with hv | hv <;> subst hv <;> simp [buildPayload, lookupField]

/-- Witness for C8: with `variables={"a": 1}` the body carries the
mapping, and with `variables=None` or `variables={}` it does not. -/
theorem payload_query_and_variables_witness :
    lookupField (buildPayload "qq" (some [("a", Json.int 1)])) "query" =
      some (Json.str "qq") ∧
    lookupField (buildPayload "qq" (some [("a", Json.int 1)])) "variables" =
      some (Json.obj [("a", Json.int 1)]) ∧
    lookupField (buildPayload "qq" none) "variables" = none ∧
    lookupField (buildPayload "qq" (some [])) "variables" = none :=
  ⟨(payload_query_and_variables "qq" (some [("a", Json.int 1)])).1,
   (payload_query_and_variables "qq" (some [("a", Json.int 1)])).2.1
     [("a", Json.int 1)] rfl (by simp),
   (payload_query_and_variables "qq" none).2.2 (Or.inl rfl),
   (payload_query_and_variables "qq" (some [])).2.2 (Or.inr rfl)⟩

theorem heapWrite_preserves (h : Heap) (a b : Nat) (k : String) (v : Json)
    (hne : b ≠ a) : (heapWrite h a k v)[b]? = h[b]? :=
  List.getElem?_set_ne (fun he => hne he.symm)

theorem normalizeLoopHeap_preserves (items : List (String × Json))
    (h : Heap) (a b : Nat) (hne : b ≠ a) :
    (normalizeLoopHeap h a items)[b]? = h[b]? := by
  induction items generalizing h with
  | nil => rfl
  | cons p rest ih =>
    obtain ⟨k, v⟩ := p
    show (normalizeLoopHeap
        (if isTextDict v then heapWrite h a k (normalizeValue v) else h) a rest)[b]? = h[b]?
    rw [ih]
    by_cases ht : isTextDict v = true
    · rw [if_pos ht, heapWrite_preserves h a b k (normalizeValue v) hne]
    · rw [if_neg ht]

/-- C10: `update_monday_item` does not mutate the caller's `column_values`
dict — `json.loads` allocates a fresh object and the normalization loop
writes only through it, so the dict object at the caller's address is the
same after the call, for every decoder and transport behaviour. -/
theorem update_does_not_mutate_caller (item : PyScalar) (board : Json)
    (callerAddr : Nat) (h : Heap) (loads : String → Except Unit Json)
    (transport : UpdatePayload → Except Unit Json)
    (hlt : callerAddr < h.length) :
    (update_monday_item_heap item board callerAddr h loads transport).1[callerAddr]? =
      h[callerAddr]? := by
  have hfresh : ∀ decoded : Dict,
      (normalizeLoopHeap (h ++ [decoded]) h.length decoded)[callerAddr]? =
        h[callerAddr]? := by
    intro decoded
    rw [normalizeLoopHeap_preserves decoded (h ++ [decoded]) h.length callerAddr
      (Nat.ne_of_lt hlt)]
    exact List.getElem?_append_left hlt
  simp only [update_monday_item_heap]
  cases hl : loads (dumpsJson (Json.obj (h.getD callerAddr []))) with
  | error e => rfl
  | ok j =>
    cases j with
    | obj decoded =>
      split
      · rfl
      · split <;> exact hfresh _
      · rfl
    | null => rfl
    | bool b => rfl
    | int n => rfl
    | str s => rfl
    | arr elems => rfl

/-- Witness for C10: a concrete one-dict heap is unchanged at the caller's
address after a full (networked) update call. -/
theorem update_does_not_mutate_caller_witness :
    (update_monday_item_heap (PyScalar.s "123") (Json.int 456) 0
        [[("notes", Json.obj [("text", Json.str "")])]]
        (fun _ => Except.ok (Json.obj [("notes", Json.obj [("text", Json.str "")])]))
        (fun _ => Except.ok Json.null)).1[0]? =
      ([[("notes", Json.obj [("text", Json.str "")])]] : Heap)[0]? :=
  update_does_not_mutate_caller (PyScalar.s "123") (Json.int 456) 0
    [[("notes", Json.obj [("text", Json.str "")])]]
    (fun _ => Except.ok (Json.obj [("notes", Json.obj [("text", Json.str "")])]))
    (fun _ => Except.ok Json.null) (by decide)

end MondayApi
